import Mathlib

/-!
Shallow embedding of the jamf_login_log repository: the agent reconciler
jamf_login_log_launchagent.py together with the log-window script it embeds,
and the companion teardown tool remove_launch_agent.py.  Python strings are
modelled as lists of characters, Python exceptions as an Except layer, the
filesystem and the external service-control surface as explicit state plus
an event trace.
-/

/-- Exception kinds raised by the modelled Python code (NSRangeException from
NSMutableArray is folded in as rangeError). -/
inductive PyExc where
  | keyError
  | typeError
  | attributeError
  | indexError
  | rangeError
deriving DecidableEq

/-- The NSColor constants produced by JamfLogSource.nsColorForColor_
(jamf_login_log_launchagent.py lines 279-310).  The source never returns
whiteColor: its white branch returns lightGrayColor (lines 304-306). -/
inductive Color where
  | black
  | blue
  | brown
  | cyan
  | darkgray
  | gray
  | green
  | lightgray
  | magenta
  | orange
  | purple
  | red
  | white
  | yellow
deriving DecidableEq

/-- Python str.partition with a one-character separator: the text before the
first occurrence, whether the separator occurs, the text after it. -/
def pyPartition (sep : Char) : List Char → List Char × Bool × List Char
  | [] => ([], false, [])
  | c :: cs =>
    if c = sep then ([], true, cs)
    else
      let r := pyPartition sep cs
      (c :: r.1, r.2.1, r.2.2)

/-- Python str.split with a one-character separator and no maxsplit. -/
def pySplit (sep : Char) : List Char → List (List Char)
  | [] => [[]]
  | c :: cs =>
    if c = sep then [] :: pySplit sep cs
    else
      match pySplit sep cs with
      | [] => [[c]]
      | h :: t => (c :: h) :: t

/-- The whitespace characters removed by Python str.strip. -/
def isPySpace (c : Char) : Bool :=
  c = ' ' || c = '\t' || c = '\n' || c = '\r' || c = Char.ofNat 11 || c = Char.ofNat 12

/-- Python str.strip with no argument. -/
def pyStrip (l : List Char) : List Char :=
  ((l.dropWhile isPySpace).reverse.dropWhile isPySpace).reverse

/-- Python str.lower on the ASCII names handled by the parser. -/
def pyLower (l : List Char) : List Char :=
  l.map Char.toLower

/-- JamfLogSource.nsColorForColor_ (lines 279-310): a closed chain over the
palette; white resolves to lightgray, anything unrecognized to black. -/
def nsColorForColor (color : List Char) : Color :=
  if color = ("black").toList then Color.black
  else if color = ("blue").toList then Color.blue
  else if color = ("brown").toList then Color.brown
  else if color = ("cyan").toList then Color.cyan
  else if color = ("darkgray").toList then Color.darkgray
  else if color = ("gray").toList then Color.gray
  else if color = ("green").toList then Color.green
  else if color = ("lightgray").toList then Color.lightgray
  else if color = ("magenta").toList then Color.magenta
  else if color = ("orange").toList then Color.orange
  else if color = ("purple").toList then Color.purple
  else if color = ("red").toList then Color.red
  else if color = ("white").toList then Color.lightgray
  else if color = ("yellow").toList then Color.yellow
  else Color.black

/-- One comma-separated attribute of a directive block: the running color is
replaced when the attribute is a color key, otherwise kept (the inner loop
of parseLineAttr_, lines 317-327; the strip and lower on key and value
mirror line 320). -/
def applyAttr (c : Color) (attr : List Char) : Color :=
  if '=' ∈ attr then
    let q := pyPartition '=' attr
    let key := pyLower (pyStrip q.1)
    let value := pyLower (pyStrip q.2.2)
    if key = ("color").toList then nsColorForColor value else c
  else c

/-- JamfLogSource.parseLineAttr_ (lines 312-330): an optional leading
directive block is consumed up to the first closing brace; its attributes
are split on commas and stripped; absent or malformed directives leave the
line unchanged with color black. -/
def parseLineAttr (line : List Char) : List Char × Color :=
  if line.take 2 = ['%', '\x7b'] ∧ '\x7d' ∈ line then
    let p := pyPartition '\x7d' (line.drop 2)
    let color := ((pySplit ',' p.1).map pyStrip).foldl applyAttr Color.black
    (p.2.2, color)
  else (line, Color.black)

/-- JamfLogSource state: log_file_data, log_file_color and
last_line_is_partial (lines 261-263). -/
structure LogSource where
  data : List (List Char)
  colors : List Color
  lastPartialFlag : Bool
deriving DecidableEq

/-- The class-level initial state of JamfLogSource: both arrays empty and
the partial flag false. -/
def emptySource : LogSource := ⟨[], [], false⟩

/-- JamfLogSource.addLine_partial_ (lines 265-277).  In the partial branch
lastObject() of an empty data array is nil, and nil + line raises a
TypeError; removeLastObject on an empty color array raises an
NSRangeException. -/
def addLine (s : LogSource) (line : List Char) (isPartialFlag : Bool) :
    Except PyExc LogSource :=
  if s.lastPartialFlag then
    match s.data.getLast? with
    | none => Except.error PyExc.typeError
    | some last =>
      let nl := parseLineAttr (last ++ line)
      match s.colors with
      | [] => Except.error PyExc.rangeError
      | _ :: _ =>
        Except.ok ⟨s.data.dropLast ++ [nl.1], s.colors.dropLast ++ [nl.2], isPartialFlag⟩
  else
    let nl := parseLineAttr line
    Except.ok ⟨s.data ++ [nl.1], s.colors ++ [nl.2], isPartialFlag⟩

/-- JamfLogSource.removeAllLines (lines 332-334): removeAllObjects is sent
only to log_file_data; the color array and the partial flag are kept. -/
def removeAllLines (s : LogSource) : LogSource :=
  ⟨[], s.colors, s.lastPartialFlag⟩

/-- The color the table renderer pairs with a row
(tableView_dataCellForTableColumn_row_, line 347). -/
def rowColor (s : LogSource) (row : Nat) : Option Color :=
  s.colors.get? row

/-- The text the table renderer pairs with a row
(tableView_objectValueForTableColumn_row_, line 342). -/
def rowText (s : LogSource) (row : Nat) : Option (List Char) :=
  s.data.get? row

/-- splitlines keeping terminators, as exercised by refreshLog on text whose
line separators are line feeds (line 556). -/
def splitKeepEnds : List Char → List (List Char)
  | [] => []
  | c :: cs =>
    if c = '\n' then ['\n'] :: splitKeepEnds cs
    else
      match splitKeepEnds cs with
      | [] => [[c]]
      | seg :: rest => (c :: seg) :: rest

/-- Python rstrip for the line-feed character (line 559). -/
def rstripNl (l : List Char) : List Char :=
  (l.reverse.dropWhile (fun c => c = '\n')).reverse

/-- The line-feeding part of JamfLogWindow.refreshLog (lines 550-561): each
segment of the newly read chunk is appended complete when it ends in a line
feed (with the line feed stripped) and partial otherwise. -/
def feedChunk (s : LogSource) (chunk : List Char) : Except PyExc LogSource :=
  (splitKeepEnds chunk).foldlM
    (fun st seg =>
      if seg.getLast? = some '\n' then addLine st (rstripNl seg) false
      else addLine st seg true) s

/-- One hardware interface returned by SCNetworkInterfaceCopyAll (lines
603-612): its BSD name (possibly nil) and the outcome of resolving its
localized display name and hardware address, where an error stands for the
TypeError swallowed by the inner handler. -/
structure CopiedInterface where
  bsd : Option String
  resolve : Except Unit (Option String × Option String)

/-- The SystemConfiguration environment read by get_network_info.
ifaceValue models SCDynamicStoreCopyValue for the interface list: none when
the store has no value (so .get raises AttributeError), some none when the
returned record lacks an Interfaces entry (so iterating None raises
TypeError), some (some l) for an interface-name list.  ipv4 models the
per-interface IPv4 record: none when the store has no value, some a for a
record whose Addresses entry is a (itself optional). -/
structure NetEnv where
  ifaceValue : Option (Option (List String))
  ipv4 : String → Option (Option (List String))
  copied : List CopiedInterface

/-- A connectedDevices entry (lines 598-600 and 607-610): the dictionary
keys interface and address are always present (address may hold None);
name and mac are present only after a successful join. -/
structure Device where
  interface : String
  address : Option (List String)
  name : Option (Option String)
  mac : Option (Option String)

/-- The first loop of get_network_info (lines 593-600): keep every
interface with an IPv4 record other than lo0. -/
def collectDevices (env : NetEnv) (ifs : List String) : List Device :=
  ifs.foldl
    (fun acc i =>
      match env.ipv4 i with
      | none => acc
      | some addrs =>
        if i ≠ "lo0" then acc ++ [⟨i, addrs, none, none⟩] else acc) []

/-- The second loop of get_network_info (lines 603-612): for each copied
hardware interface, set name and mac on every device with the matching BSD
name; a TypeError while resolving is swallowed and the update skipped. -/
def joinDevices (devs : List Device) (cis : List CopiedInterface) : List Device :=
  cis.foldl
    (fun ds ci =>
      match ci.resolve with
      | Except.error _ => ds
      | Except.ok nm =>
        ds.map (fun d =>
          if some d.interface = ci.bsd then ⟨d.interface, d.address, some nm.1, some nm.2⟩
          else d))
    devs

/-- Python str interpolation of a value that may be None. -/
def pyStrOfOpt : Option String → String
  | none => "None"
  | some s => s

/-- One line of the summary (lines 616-617), with Python evaluation order:
a missing mac or name key raises KeyError, an address of None raises
TypeError, an empty address list raises IndexError. -/
def formatDevice (d : Device) : Except PyExc String :=
  match d.mac with
  | none => Except.error PyExc.keyError
  | some mv =>
    match d.address with
    | none => Except.error PyExc.typeError
    | some [] => Except.error PyExc.indexError
    | some (a :: _) =>
      match d.name with
      | none => Except.error PyExc.keyError
      | some nv =>
        Except.ok (pyStrOfOpt mv ++ "\t" ++ a ++ "\t" ++ pyStrOfOpt nv ++ " (" ++
          d.interface ++ ")")

/-- The summary list comprehension (lines 615-618), devices evaluated left
to right. -/
def formatDevices : List Device → Except PyExc (List String)
  | [] => Except.ok []
  | d :: ds =>
    match formatDevice d with
    | Except.error e => Except.error e
    | Except.ok s =>
      match formatDevices ds with
      | Except.error e => Except.error e
      | Except.ok rest => Except.ok (s :: rest)

/-- The body of JamfLogWindow.get_network_info (lines 586-618), before any
exception handling. -/
def networkBody (env : NetEnv) : Except PyExc String :=
  match env.ifaceValue with
  | none => Except.error PyExc.attributeError
  | some none => Except.error PyExc.typeError
  | some (some ifs) =>
    match formatDevices (joinDevices (collectDevices env ifs) env.copied) with
    | Except.error e => Except.error e
    | Except.ok lines => Except.ok (String.intercalate "\n" lines)

/-- JamfLogWindow.get_network_info (lines 584-622): only KeyError is
caught and replaced by the sentinel; every other failure propagates. -/
def get_network_info (env : NetEnv) : Except PyExc String :=
  match networkBody env with
  | Except.error PyExc.keyError => Except.ok "Unknown"
  | r => r

/-- JamfLogWindow.get_sc_computername (lines 574-582): the lookup outcome
is external; a bare except replaces every failure by the sentinel. -/
def get_sc_computername (r : Except PyExc String) : String :=
  match r with
  | Except.ok s => s
  | Except.error _ => "Unknown"

/-- JamfLogWindow.get_jamf_command (lines 624-632): the pgrep outcome is
external; a bare except replaces every failure by the sentinel. -/
def get_jamf_command (r : Except PyExc String) : String :=
  match r with
  | Except.ok s => s
  | Except.error _ => "Unknown"

/-- The snapshot part of JamfLogWindow.refreshLog (lines 565-572): computer
name, jamf process listing, network summary, in that order; an uncaught
failure of the network lookup aborts the cycle. -/
def refreshSnapshots (cn jc : Except PyExc String) (net : NetEnv) :
    Except PyExc (String × String × String) :=
  match get_network_info net with
  | Except.error e => Except.error e
  | Except.ok n => Except.ok (get_sc_computername cn, get_jamf_command jc, n)

/-- Global constants of jamf_login_log_launchagent.py (lines 33-47). -/
def LAUNCHCTL : String := "/bin/launchctl"

def system_python : String :=
  "/System/Library/Frameworks/Python.framework/Versions/Current/Resources/Python.app/Contents/MacOS/Python"

def library_support : String := "/Library/Application Support/"

def library_logs : String := "/Library/Logs/"

def library_launchagents : String := "/Library/LaunchAgents/"

def launch_agent_label : String := "com.github.primalcurve.jamf_login_log"

def launch_agent_file : String := library_launchagents ++ launch_agent_label ++ ".plist"

def launch_agent_out_path : String := library_logs ++ launch_agent_label ++ ".log"

def log_script_file : String := library_support ++ launch_agent_label ++ ".py"

/-- The declarative descriptor shape (the plist dictionary of lines 50-61
and the records read back by both tools); equality is structural. -/
structure LaunchAgentDict where
  Label : String
  ProgramArguments : List String
  LimitLoadToSessionType : List String
  RunAtLoad : Bool
  KeepAlive : Bool
  StandardOutPath : String
  StandardErrorPath : String
deriving DecidableEq

/-- The desired descriptor, launch_agent_dict (lines 50-61). -/
def launch_agent_dict : LaunchAgentDict :=
  ⟨launch_agent_label, [system_python, log_script_file], ["LoginWindow"], true, false,
   launch_agent_out_path, launch_agent_out_path⟩

/-- The uid of the root account fetched at lines 66-67. -/
def rootUid : Nat := 0

/-- The gid of the root account fetched at lines 66-67. -/
def rootGid : Nat := 0

/-- The modules the reconciler script actually makes available
(lines 26-29); subprocess is not among them. -/
def moduleImports : List String := ["os", "pwd", "sys", "plistlib"]

/-- Filesystem objects touched by the reconciler. -/
inductive FsPath where
  | agentPlist
  | scriptFile
  | supportDir
deriving DecidableEq

/-- Observable effects of one reconciler run. -/
inductive Event where
  | write (p : FsPath)
  | lchown (p : FsPath) (u g : Nat)
  | chmod (p : FsPath) (mode : Nat)
  | mkdirs (p : FsPath) (mode : Nat)
  | cmd (c : List String)
  | nameError
deriving DecidableEq

/-- Abstract filesystem state: the parsed descriptor on disk (none when
absent), the script contents, and owner, mode and directory-existence
bookkeeping. -/
structure FS where
  agentPlist : Option LaunchAgentDict
  agentOwner : Option (Nat × Nat)
  agentMode : Option Nat
  script : Option String
  scriptOwner : Option (Nat × Nat)
  scriptMode : Option Nat
  supportDir : Bool
deriving DecidableEq

/-- Descriptor reconciliation (lines 72-97): compare the on-disk record
with the desired one, and on mismatch or absence rewrite it, chown it to
root and chmod it 0644; on match do nothing. -/
def agentReconcile (fs : FS) : FS × List Event :=
  if fs.agentPlist = some launch_agent_dict then (fs, [])
  else
    ({ fs with agentPlist := some launch_agent_dict,
               agentOwner := some (rootUid, rootGid),
               agentMode := some 0o644 },
     [Event.write FsPath.agentPlist,
      Event.lchown FsPath.agentPlist rootUid rootGid,
      Event.chmod FsPath.agentPlist 0o644])

/-- Script reconciliation (lines 682-712): on content mismatch or absence,
create the parent directory if needed, rewrite the script, chown it to
root, then run the chmod of line 707 - which targets launch_agent_file,
the descriptor, with mode 0755, not the script file.  createMode stands
for the umask-derived mode of a freshly created file. -/
def scriptReconcile (logScript : String) (fs : FS) (createMode : Nat) :
    FS × List Event :=
  if fs.script = some logScript then (fs, [])
  else
    let mk : List Event :=
      if fs.supportDir then [] else [Event.mkdirs FsPath.supportDir 0o700]
    ({ fs with supportDir := true,
               script := some logScript,
               scriptMode := (match fs.script with
                 | none => some createMode
                 | some _ => fs.scriptMode),
               scriptOwner := some (rootUid, rootGid),
               agentMode := some 0o755 },
     mk ++ [Event.write FsPath.scriptFile,
            Event.lchown FsPath.scriptFile rootUid rootGid,
            Event.chmod FsPath.agentPlist 0o755])

/-- The launchctl command list (lines 716-719). -/
def launchctl_list : List (List String) :=
  [[LAUNCHCTL, "bootstrap", "loginwindow", launch_agent_file],
   [LAUNCHCTL, "enable", "loginwindow/" ++ launch_agent_label],
   [LAUNCHCTL, "kickstart", "-k", "loginwindow/" ++ launch_agent_label]]

/-- The activation loop (lines 723-728).  Each iteration evaluates
subprocess.check_call, but the enclosing module only makes os, pwd, sys
and plistlib available (lines 26-29), so with the source as written the
first iteration raises a NameError; the except clause, which names
subprocess as well, cannot catch it, and the loop aborts.  The Bool
records whether the loop ran to completion. -/
def launchctlGo (imports : List String) : List (List String) → List Event × Bool
  | [] => ([], true)
  | c :: rest =>
    if "subprocess" ∈ imports then
      let r := launchctlGo imports rest
      (Event.cmd c :: r.1, r.2)
    else ([Event.nameError], false)

/-- One top-to-bottom run of jamf_login_log_launchagent.py over an abstract
filesystem: descriptor reconciliation, script reconciliation, activation
loop.  logScript stands for the embedded log_script literal (lines
103-679), treated as opaque content exactly as the comparison at line 693
does.  The Bool is true when the run reaches sys.exit(0). -/
def reconcilerRun (logScript : String) (fs : FS) (createMode : Nat) :
    FS × List Event × Bool :=
  let a := agentReconcile fs
  let s := scriptReconcile logScript a.1 createMode
  let l := launchctlGo moduleImports launchctl_list
  (s.1, a.2 ++ s.2 ++ l.1, l.2)

/-- Recognize a service-control command event. -/
def isCmdEv : Event → Bool
  | Event.cmd _ => true
  | _ => false

/-- Recognize a write to a given path. -/
def isWriteTo (p : FsPath) : Event → Bool
  | Event.write q => decide (q = p)
  | _ => false

/-- Recognize any filesystem mutation. -/
def isFsEffectEv : Event → Bool
  | Event.write _ => true
  | Event.lchown _ _ _ => true
  | Event.chmod _ _ => true
  | Event.mkdirs _ _ => true
  | _ => false

/-- A fresh target: no descriptor, no script on disk. -/
def freshFS : FS := ⟨none, none, none, none, none, none, true⟩

/-- Service-target resolution of remove_launch_agent.py main (lines
379-385): a record whose LimitLoadToSessionType contains LoginWindow
overrides the target to the loginwindow scope. -/
def serviceTargetFor (agentName : String) (baseTarget : String)
    (plist : Option LaunchAgentDict) : String :=
  let sessionTypes := match plist with
    | none => []
    | some d => d.LimitLoadToSessionType
  if "LoginWindow" ∈ sessionTypes then "loginwindow/" ++ agentName else baseTarget

/-- The teardown command list for one resolved target (lines 388-390). -/
def teardownCmds (agentName : String) (baseTarget : String)
    (plist : Option LaunchAgentDict) : List (List String) :=
  let st := serviceTargetFor agentName baseTarget plist
  [[LAUNCHCTL, "kill", "-15", st],
   [LAUNCHCTL, "bootout", st],
   [LAUNCHCTL, "disable", st]]

/-- remove_launch_agent.py main under the system agent domain (lines
350-356 with 368-390): the single target starts as system/agent-name and
the record at the system-wide agents directory is consulted; none stands
for the per-user branch taken for other domains, outside this model. -/
def teardownSystemInvocation (agentName agentDomain : String)
    (plist : Option LaunchAgentDict) : Option (List (List String)) :=
  if pyLower agentDomain.toList = ("system").toList then
    some (teardownCmds agentName ("system/" ++ agentName) plist)
  else none

/-- C8: for every line formed by the red color directive prefix followed by
any remainder, the parser strips the prefix including the closing brace and
returns the remainder untouched with color red; with a white directive the
resolved tag is lightgray, not white. -/
theorem parse_red_and_white_directives (s : List Char) :
    parseLineAttr (("%\x7bcolor=red\x7d").toList ++ s) = (s, Color.red) ∧
    parseLineAttr (("%\x7bcolor=white\x7d").toList ++ s) = (s, Color.lightgray) := by
  constructor <;> rfl

/-- C3 counterexample: a color directive contained entirely in the first
fragment of a split line does not resolve to its directive color.  The
partial fragment is parsed on arrival (storing text he with color red);
the remainder is then concatenated onto the already-parsed text, and the
re-parse of hello yields black, whereas parsing the full logical line
yields red. -/
theorem contained_directive_color_lost :
    addLine emptySource ("%\x7bcolor=red\x7dhe").toList true =
      Except.ok ⟨[("he").toList], [Color.red], true⟩ ∧
    addLine ⟨[("he").toList], [Color.red], true⟩ ("llo").toList false =
      Except.ok ⟨[("hello").toList], [Color.black], false⟩ ∧
    parseLineAttr ("%\x7bcolor=red\x7dhello").toList = (("hello").toList, Color.red) ∧
    Color.black ≠ Color.red :=
  ⟨rfl, rfl, rfl, by decide⟩

/-- C3 (amended): when the previous chunk left the last stored line
partial, the assembler concatenates the next segment onto the last stored
line's already-parsed text (not its pre-parse text), re-runs the parser
over that concatenation, and replaces the last stored entry, so the split
line yields exactly one stored entry whose text and color equal the parse
of that concatenation.  A directive straddling the read boundary still
resolves to its directive color, because the first parse left the
unterminated directive text unchanged; a directive contained entirely in
the first fragment was stripped by the first parse and its color is lost
on re-parse. -/
theorem addLine_partial_reparses_stored_text (s : LogSource)
    (line l : List Char) (b : Bool)
    (h1 : s.lastPartialFlag = true) (h2 : s.data.getLast? = some l)
    (h3 : s.colors ≠ []) :
    addLine s line b =
      Except.ok ⟨s.data.dropLast ++ [(parseLineAttr (l ++ line)).1],
                 s.colors.dropLast ++ [(parseLineAttr (l ++ line)).2], b⟩ ∧
    (s.data.dropLast ++ [(parseLineAttr (l ++ line)).1]).length = s.data.length := by
  have hd : s.data ≠ [] := by
    intro h
    rw [h] at h2
    simp at h2
  constructor
  · cases hc : s.colors with
    | nil => exact absurd hc h3
    | cons c cs =>
      unfold addLine
      rw [h1, h2, hc]
      simp
  · have hpos : 0 < s.data.length := List.length_pos.mpr hd
    simp [List.length_append, List.length_dropLast]
    omega

/-- C3 witness: the amended replacement law applied to a store whose last
line is the unterminated first fragment of a directive split across the
read boundary; the re-parse resolves the straddling directive to red. -/
theorem addLine_partial_reparses_stored_text_witness :
    addLine ⟨[("%\x7bcol").toList], [Color.black], true⟩ ("or=red\x7dhi").toList false =
      Except.ok ⟨[("hi").toList], [Color.red], false⟩ ∧
    ([("hi").toList] : List (List Char)).length = 1 :=
  addLine_partial_reparses_stored_text ⟨[("%\x7bcol").toList], [Color.black], true⟩
    ("or=red\x7dhi").toList ("%\x7bcol").toList false rfl rfl (by decide)

/-- C7: feeding the bytes ab, line feed, cd in one chunk leaves the store
in the same final state as feeding them across three chunks a, b-newline-c,
d: two stored lines ab and cd, both black, with the last one partial. -/
theorem chunking_invariance_example :
    feedChunk emptySource ("ab\ncd").toList =
      ((feedChunk emptySource ("a").toList).bind
        (fun s1 => (feedChunk s1 ("b\nc").toList).bind
          (fun s2 => feedChunk s2 ("d").toList))) ∧
    feedChunk emptySource ("ab\ncd").toList =
      Except.ok ⟨[("ab").toList, ("cd").toList], [Color.black, Color.black], true⟩ := by
  constructor <;> rfl

/-- C10: every append or replace-last keeps the text and color arrays at
equal length; removeAllLines empties only the text array and leaves the
color array and the partial flag untouched; consequently, after a clear
with prior lines present, a line appended afterwards is paired at render
time with a color entry left over from before the clear (row 0 renders
red although the new line parsed black). -/
theorem store_lengths_and_clear_anomaly :
    (∀ (s : LogSource) (l : List Char) (b : Bool) (s' : LogSource),
        s.data.length = s.colors.length → addLine s l b = Except.ok s' →
        s'.data.length = s'.colors.length) ∧
    (∀ s : LogSource, removeAllLines s = ⟨[], s.colors, s.lastPartialFlag⟩) ∧
    (removeAllLines ⟨[("x").toList], [Color.red], false⟩ = ⟨[], [Color.red], false⟩ ∧
     addLine ⟨[], [Color.red], false⟩ ("y").toList false =
       Except.ok ⟨[("y").toList], [Color.red, Color.black], false⟩ ∧
     rowColor ⟨[("y").toList], [Color.red, Color.black], false⟩ 0 = some Color.red ∧
     (parseLineAttr ("y").toList).2 = Color.black) := by
  refine ⟨?_, fun s => rfl, rfl, rfl, rfl, rfl⟩
  intro s l b s' hlen hok
  unfold addLine at hok
  cases hps : s.lastPartialFlag with
  | false =>
    rw [hps] at hok
    simp at hok
    rw [← hok]
    simp [hlen]
  | true =>
    rw [hps] at hok
    simp at hok
    cases hgl : s.data.getLast? with
    | none =>
      rw [hgl] at hok
      simp at hok
    | some last =>
      rw [hgl] at hok
      cases hc : s.colors with
      | nil =>
        rw [hc] at hok
        simp at hok
      | cons c cs =>
        rw [hc] at hok
        simp at hok
        have hd : s.data ≠ [] := by
          intro h
          rw [h] at hgl
          simp at hgl
        have hpos : 0 < s.data.length := List.length_pos.mpr hd
        rw [← hok]
        simp [List.length_append, List.length_dropLast]
        rw [hc] at hlen
        simp at hlen
        omega

/-- C10 witness: the equal-length preservation applied to a concrete
append on the empty store. -/
theorem store_lengths_and_clear_anomaly_witness :
    emptySource.data.length = emptySource.colors.length ∧
    addLine emptySource ("x").toList false =
      Except.ok ⟨[("x").toList], [Color.black], false⟩ ∧
    ([("x").toList] : List (List Char)).length = ([Color.black] : List Color).length :=
  ⟨rfl, rfl,
   store_lengths_and_clear_anomaly.1 emptySource ("x").toList false
     ⟨[("x").toList], [Color.black], false⟩ rfl rfl⟩

/-- C4 counterexample: a refresh cycle in which the network lookup fails
with a TypeError - the dynamic-store record has no Interfaces entry, so
the code iterates None - is not caught (only KeyError is) and the failure
propagates out of the snapshot refresh, aborting it. -/
theorem network_failure_escapes_refresh :
    refreshSnapshots (Except.ok "mac-01") (Except.ok "12 jamf")
      ⟨some none, fun _ => none, []⟩ = Except.error PyExc.typeError := rfl

/-- C4 (amended): the computer-name and jamf-process lookups replace every
failure with the sentinel Unknown; the network lookup replaces only a
KeyError with the sentinel, and every other failure kind propagates out of
the refresh cycle. -/
theorem snapshot_fault_handling (e : PyExc) (env : NetEnv) (f : PyExc)
    (hb : networkBody env = Except.error f) :
    get_sc_computername (Except.error e) = "Unknown" ∧
    get_jamf_command (Except.error e) = "Unknown" ∧
    (f = PyExc.keyError → get_network_info env = Except.ok "Unknown") ∧
    (f ≠ PyExc.keyError →
      refreshSnapshots (Except.ok "n") (Except.ok "j") env = Except.error f) := by
  refine ⟨rfl, rfl, ?_, ?_⟩
  · intro hf
    subst hf
    unfold get_network_info
    rw [hb]
  · intro hf
    unfold refreshSnapshots get_network_info
    rw [hb]
    cases f with
    | keyError => exact absurd rfl hf
    | typeError => rfl
    | attributeError => rfl
    | indexError => rfl
    | rangeError => rfl

/-- C4 witness: the fault-handling law applied to the concrete environment
whose dynamic-store record lacks an Interfaces entry, with the resulting
TypeError escaping the cycle. -/
theorem snapshot_fault_handling_witness :
    networkBody ⟨some none, fun _ => none, []⟩ = Except.error PyExc.typeError ∧
    get_sc_computername (Except.error PyExc.attributeError) = "Unknown" ∧
    refreshSnapshots (Except.ok "n") (Except.ok "j") ⟨some none, fun _ => none, []⟩ =
      Except.error PyExc.typeError :=
  ⟨rfl,
   (snapshot_fault_handling PyExc.attributeError ⟨some none, fun _ => none, []⟩
      PyExc.typeError rfl).1,
   (snapshot_fault_handling PyExc.attributeError ⟨some none, fun _ => none, []⟩
      PyExc.typeError rfl).2.2.2 (by decide)⟩

/-- C5 counterexample: a single active non-loopback interface (en0, with an
IPv4 address) for which the hardware join resolved neither a display name
nor a MAC is not listed at all: the whole summary degrades to the sentinel
Unknown, which does not mention en0. -/
theorem unmatched_interface_not_listed :
    get_network_info ⟨some (some ["en0"]), fun _ => some (some ["1.2.3.4"]), []⟩ =
      Except.ok "Unknown" ∧
    ¬ ("en0").toList <:+: ("Unknown").toList :=
  ⟨rfl, by decide⟩

/-- C5 (amended): an active non-loopback interface whose join found no
matching hardware interface is left without name and mac fields; the
formatting step then raises a KeyError on the missing mac key, the outer
handler catches it, and the whole summary - not just that interface -
becomes the sentinel Unknown. -/
theorem unmatched_interface_yields_unknown (ifname : String)
    (addrs : Option (List String)) (h : ifname ≠ "lo0") :
    get_network_info ⟨some (some [ifname]), fun _ => some addrs, []⟩ =
      Except.ok "Unknown" := by
  unfold get_network_info networkBody collectDevices joinDevices
  simp [h, formatDevices, formatDevice]

/-- C5 witness: the degradation law at interface en0 with a resolved IPv4
address. -/
theorem unmatched_interface_yields_unknown_witness :
    ("en0" : String) ≠ "lo0" ∧
    get_network_info ⟨some (some ["en0"]), fun _ => some (some ["10.0.0.5"]), []⟩ =
      Except.ok "Unknown" :=
  ⟨by decide, unmatched_interface_yields_unknown "en0" (some ["10.0.0.5"]) (by decide)⟩

/-- C1: on a fresh filesystem one run does write the descriptor, chown it
to root and chmod it 0644, and a second identical run performs no
filesystem effect; but after the whole first run the descriptor mode is
0755, not 0644 - the script-branch chmod of line 707 targets the
descriptor - and no install, enable or restart command is ever issued:
the activation loop aborts on an uncaught NameError because subprocess is
never imported. -/
theorem fresh_run_outcome (logScript : String) (cm : Nat) :
    Event.write FsPath.agentPlist ∈ (reconcilerRun logScript freshFS cm).2.1 ∧
    Event.lchown FsPath.agentPlist rootUid rootGid ∈ (reconcilerRun logScript freshFS cm).2.1 ∧
    Event.chmod FsPath.agentPlist 0o644 ∈ (reconcilerRun logScript freshFS cm).2.1 ∧
    (reconcilerRun logScript freshFS cm).1.agentMode = some 0o755 ∧
    (reconcilerRun logScript freshFS cm).2.1.filter isCmdEv = [] ∧
    (reconcilerRun logScript freshFS cm).2.2 = false ∧
    (reconcilerRun logScript
        (reconcilerRun logScript freshFS cm).1 cm).2.1.filter isFsEffectEv = [] := by
  refine ⟨?_, ?_, ?_, rfl, ?_, rfl, ?_⟩ <;>
    simp [reconcilerRun, agentReconcile, scriptReconcile, launchctlGo, launchctl_list,
      moduleImports, freshFS, isCmdEv, isFsEffectEv, launch_agent_dict]

/-- C2: on every run, whatever the filesystem state, the activation loop
issues no service-control command at all: its first iteration raises an
uncaught NameError (the module imports of lines 26-29 do not include
subprocess), so neither install nor enable nor restart happens and the run
never reaches sys.exit(0). -/
theorem activation_loop_issues_no_commands (logScript : String) (cm : Nat) (fs : FS) :
    (reconcilerRun logScript fs cm).2.1.filter isCmdEv = [] ∧
    Event.nameError ∈ (reconcilerRun logScript fs cm).2.1 ∧
    (reconcilerRun logScript fs cm).2.2 = false := by
  unfold reconcilerRun agentReconcile scriptReconcile
  by_cases h1 : fs.agentPlist = some launch_agent_dict <;>
    by_cases h2 : fs.script = some logScript <;>
      by_cases h3 : fs.supportDir <;>
        simp [h1, h2, h3, launchctlGo, launchctl_list, moduleImports, isCmdEv]

/-- C6: applying the same desired descriptor twice in a row rewrites the
descriptor exactly once, on the first run, and zero times on the second;
the second run performs no filesystem effect at all and leaves the whole
filesystem state - in particular the descriptor owner and mode -
unchanged. -/
theorem apply_twice_idempotent (logScript : String) (cm : Nat) (fs : FS)
    (h : fs.agentPlist ≠ some launch_agent_dict) :
    ((reconcilerRun logScript fs cm).2.1.filter (isWriteTo FsPath.agentPlist)).length = 1 ∧
    ((reconcilerRun logScript (reconcilerRun logScript fs cm).1 cm).2.1.filter
        (isWriteTo FsPath.agentPlist)).length = 0 ∧
    (reconcilerRun logScript (reconcilerRun logScript fs cm).1 cm).2.1.filter
        isFsEffectEv = [] ∧
    (reconcilerRun logScript (reconcilerRun logScript fs cm).1 cm).1 =
      (reconcilerRun logScript fs cm).1 := by
  unfold reconcilerRun agentReconcile scriptReconcile
  by_cases h2 : fs.script = some logScript <;>
    by_cases h3 : fs.supportDir <;>
      simp [h, h2, h3, launchctlGo, launchctl_list, moduleImports, isWriteTo, isFsEffectEv]

/-- C6 witness: the idempotence law applied to a fresh filesystem. -/
theorem apply_twice_idempotent_witness :
    freshFS.agentPlist ≠ some launch_agent_dict ∧
    (((reconcilerRun "s" freshFS 0).2.1.filter (isWriteTo FsPath.agentPlist)).length = 1 ∧
     ((reconcilerRun "s" (reconcilerRun "s" freshFS 0).1 0).2.1.filter
         (isWriteTo FsPath.agentPlist)).length = 0 ∧
     (reconcilerRun "s" (reconcilerRun "s" freshFS 0).1 0).2.1.filter
         isFsEffectEv = [] ∧
     (reconcilerRun "s" (reconcilerRun "s" freshFS 0).1 0).1 =
       (reconcilerRun "s" freshFS 0).1) :=
  ⟨by decide, apply_twice_idempotent "s" 0 freshFS (by decide)⟩

/-- C9: an agent whose on-disk descriptor limits its session type to
LoginWindow is torn down against the loginwindow-scoped service target,
for each of the kill, bootout and disable commands, even when the tool is
invoked with the system agent domain. -/
theorem teardown_loginwindow_override (agentName : String) (d : LaunchAgentDict)
    (h : "LoginWindow" ∈ d.LimitLoadToSessionType) :
    teardownSystemInvocation agentName "system" (some d) =
      some [[LAUNCHCTL, "kill", "-15", "loginwindow/" ++ agentName],
            [LAUNCHCTL, "bootout", "loginwindow/" ++ agentName],
            [LAUNCHCTL, "disable", "loginwindow/" ++ agentName]] := by
  unfold teardownSystemInvocation teardownCmds serviceTargetFor
  simp [h]
  decide

/-- C9 witness: the override applied to the repository's own descriptor,
which declares exactly the LoginWindow session type. -/
theorem teardown_loginwindow_override_witness :
    "LoginWindow" ∈ launch_agent_dict.LimitLoadToSessionType ∧
    teardownSystemInvocation launch_agent_label "system" (some launch_agent_dict) =
      some [[LAUNCHCTL, "kill", "-15", "loginwindow/" ++ launch_agent_label],
            [LAUNCHCTL, "bootout", "loginwindow/" ++ launch_agent_label],
            [LAUNCHCTL, "disable", "loginwindow/" ++ launch_agent_label]] :=
  ⟨by decide, teardown_loginwindow_override launch_agent_label launch_agent_dict (by decide)⟩

/-- C8 witness: the directive law at the remainder of the spec's example
line. -/
theorem parse_red_and_white_directives_witness :
    parseLineAttr (("%\x7bcolor=red\x7d hello").toList) = ((" hello").toList, Color.red) ∧
    parseLineAttr (("%\x7bcolor=white\x7d hello").toList) =
      ((" hello").toList, Color.lightgray) :=
  parse_red_and_white_directives ((" hello").toList)
